import Mathlib

/-!
Verification of the energy-py core: episode sampling (`src/energy_py/envs/env.py`)
and the REINFORCE learner (`src/energy_py/agents/reinforce.py`), shallowly
embedded in Lean.  Python integers are modelled as `ℤ`, floats as `ℚ` (the
concrete values appearing in the spec are exactly representable), exceptions as
`Except` with one constructor per failure mode.
-/

/-- Failure modes of the episode sampler.
`configurationError` models the `ValueError` raised by
`np.random.randint(low=0, high=h)` when `h ≤ 0` (the spec's taxonomy calls this
case a `ConfigurationError`); `typeError` models Python's `TypeError` raised by
`int + tuple`. -/
inductive SamplerError
  | configurationError
  | typeError
  deriving DecidableEq, Repr

/-- `BaseEnv.random_sample` (env.py lines 110-115).
`np.random.randint(low=0, high=table_length - episode_length)` raises when the
high bound is not positive; otherwise it returns a draw from
`[0, table_length - episode_length)`.  The random draw is an explicit
parameter: theorems quantify over every value the random source may produce. -/
def random_sample (table_length episode_length draw : ℤ) :
    Except SamplerError (ℤ × ℤ) :=
  if table_length - episode_length ≤ 0 then
    .error .configurationError
  else
    .ok (draw, draw + episode_length)

/-- A Python value that is either an `int` or a tuple of ints: the local
`ep_len` in `BaseEnv.fixed_sample` is one or the other. -/
inductive EpLenVal
  | int (n : ℤ)
  | tuple (elems : List ℤ)
  deriving DecidableEq, Repr

/-- `BaseEnv.fixed_sample` (env.py lines 117-125).  When `episode_length == 0`
the source assigns `ep_len = self.state_space.shape[0],` — the trailing comma
makes `ep_len` the 1-tuple `(table_length,)`, and `start + ep_len` is then
`int + tuple`, which raises a `TypeError` in Python. -/
def fixed_sample (table_length episode_length : ℤ) :
    Except SamplerError (ℤ × ℤ) :=
  let ep_len : EpLenVal :=
    if episode_length = 0 then .tuple [table_length] else .int episode_length
  let start := table_length - episode_length
  match ep_len with
  | .int n => .ok (start, start + n)
  | .tuple _ => .error .typeError

/-- Claim C2: for every `table_length` and every `episode_length` with
`0 < episode_length ≤ table_length`, fixed-mode sampling returns
`start = table_length - episode_length` and `end = table_length`.  The result
is a function of the two lengths alone — no call count and no random seed
appears — so it is the same on every call. -/
theorem fixed_sample_deterministic (table_length episode_length : ℤ)
    (hpos : 0 < episode_length) (hle : episode_length ≤ table_length) :
    fixed_sample table_length episode_length =
      .ok (table_length - episode_length, table_length) := by
  unfold fixed_sample
  rw [if_neg (by omega)]
  simp

/-- Witness for C2 at `table_length = 10`, `episode_length = 4`. -/
theorem fixed_sample_deterministic_witness :
    fixed_sample 10 4 = .ok (6, 10) :=
  fixed_sample_deterministic 10 4 (by norm_num) (by norm_num)

/-- Claim C3, evaluated at the failing input `table_length = 5`,
`episode_length = 0`: instead of an integer pair covering the table, the code
raises a `TypeError` (`start + (5,)` is `int + tuple`). -/
theorem fixed_sample_zero_length_type_error :
    fixed_sample 5 0 = .error .typeError := by
  rfl

/-- Claim C4: whenever `table_length > episode_length`, for every value the
random source may produce in `[0, table_length - episode_length)` the pair
returned by random-mode sampling satisfies
`0 ≤ start ≤ table_length - episode_length` and `end - start = episode_length`. -/
theorem random_sample_bounds (table_length episode_length draw : ℤ)
    (hlt : episode_length < table_length)
    (hlo : 0 ≤ draw) (hhi : draw < table_length - episode_length) :
    random_sample table_length episode_length draw =
        .ok (draw, draw + episode_length)
      ∧ 0 ≤ draw ∧ draw ≤ table_length - episode_length
      ∧ (draw + episode_length) - draw = episode_length := by
  refine ⟨?_, hlo, by omega, by ring⟩
  unfold random_sample
  rw [if_neg (by omega)]

/-- Witness for C4 at `table_length = 10`, `episode_length = 3`, `draw = 2`. -/
theorem random_sample_bounds_witness :
    random_sample 10 3 2 = .ok (2, 5)
      ∧ (0:ℤ) ≤ 2 ∧ (2:ℤ) ≤ 10 - 3 ∧ (2 + 3 : ℤ) - 2 = 3 := by
  have h := random_sample_bounds 10 3 2 (by norm_num) (by norm_num) (by norm_num)
  simpa using h

/-- Claim C5: whenever `table_length ≤ episode_length`, random-mode sampling
fails with a `ConfigurationError` (the `np.random.randint` call raises because
its high bound is not above its low bound), for every value of the random
source. -/
theorem random_sample_config_error (table_length episode_length draw : ℤ)
    (hle : table_length ≤ episode_length) :
    random_sample table_length episode_length draw =
      .error .configurationError := by
  unfold random_sample
  rw [if_pos (by omega)]

/-- Witness for C5 at `table_length = 3`, `episode_length = 5`. -/
theorem random_sample_config_error_witness :
    random_sample 3 5 0 = .error .configurationError :=
  random_sample_config_error 3 5 0 (by norm_num)

/-- Failure modes of the environment state machine.  `episodeMismatchError`
models the `AssertionError` from the bare `assert` in
`BaseEnv.sample_episode` (the spec's taxonomy calls it
`EpisodeMismatchError`); `lifecycleError` is the spec's `LifecycleError`;
`attributeError` models Python's `AttributeError` on reading an attribute
that was never assigned. -/
inductive EnvError
  | episodeMismatchError
  | lifecycleError
  | attributeError
  deriving DecidableEq, Repr

/-- Modelled from the spec: `GlobalSpace.sample_episode` (imported from
`energy_py.common.spaces`, not under src/) slices the Space's time-indexed
table to the contiguous window `[start, end)`. -/
def slice_rows (table : List (List ℚ)) (start stop : ℕ) : List (List ℚ) :=
  (table.drop start).take (stop - start)

/-- `BaseEnv.sample_episode` (env.py lines 92-108): slice the state and
observation tables with the sampler's window, then
`assert state_ep.shape[0] == obs_ep.shape[0]`. -/
def sample_episode (state_table obs_table : List (List ℚ)) (start stop : ℕ) :
    Except EnvError (List (List ℚ) × List (List ℚ)) :=
  let state_ep := slice_rows state_table start stop
  let obs_ep := slice_rows obs_table start stop
  if state_ep.length = obs_ep.length then .ok (state_ep, obs_ep)
  else .error .episodeMismatchError

/-- Claim C6: after the sampler's window is used to slice the state and
observation tables, the two slices are checked for equal row counts; whenever
the row counts differ the operation fails with an `EpisodeMismatchError`, and
when they agree it returns the two slices. -/
theorem sample_episode_mismatch_check (state_table obs_table : List (List ℚ))
    (start stop : ℕ) :
    ((slice_rows state_table start stop).length ≠
        (slice_rows obs_table start stop).length →
      sample_episode state_table obs_table start stop =
        .error .episodeMismatchError)
    ∧ ((slice_rows state_table start stop).length =
        (slice_rows obs_table start stop).length →
      sample_episode state_table obs_table start stop =
        .ok (slice_rows state_table start stop,
             slice_rows obs_table start stop)) := by
  constructor
  · intro h
    unfold sample_episode
    rw [if_neg h]
  · intro h
    unfold sample_episode
    rw [if_pos h]

/-- Witness for C6: a state table of 1 row against an observation table of
2 rows, window `[0, 2)` — the slices have 1 and 2 rows, so sampling fails with
`EpisodeMismatchError`. -/
theorem sample_episode_mismatch_check_witness :
    sample_episode [[1]] [[1], [2]] 0 2 = .error .episodeMismatchError :=
  (sample_episode_mismatch_check [[1]] [[1], [2]] 0 2).1 (by decide)

/-- Lifecycle phase of the environment state machine of spec §4.2:
`UNINITIALIZED → (reset) → READY ⇄ (step) → READY | DONE`. -/
inductive EnvPhase
  | uninitialized
  | ready
  | done
  deriving DecidableEq, Repr

/-- State of the environment lifecycle machine: the phase, the internal step
counter, and the effective episode length. -/
structure EnvSM where
  phase : EnvPhase
  steps : ℕ
  episode_length : ℕ
  deriving DecidableEq, Repr

/-- Modelled from the spec: `reset` (the step-counter and lifecycle part; the
concrete `_reset` hook lives in subclasses not under src/) clears the machine
back to `READY` with the step counter at 0. -/
def sm_reset (s : EnvSM) : EnvSM :=
  { s with phase := .ready, steps := 0 }

/-- Modelled from the spec: the lifecycle part of `step` (the `done` flag, the
step counter and the `LifecycleError`; the concrete `_step` hook lives in
subclasses not under src/).  `step` out of sequence — before any `reset`, or
after `done` without an intervening `reset` — fails with a `LifecycleError`;
otherwise it increments the counter and sets `done = true` when the counter
reaches the effective episode length. -/
def sm_step (s : EnvSM) : Except EnvError (EnvSM × Bool) :=
  match s.phase with
  | .uninitialized => .error .lifecycleError
  | .done => .error .lifecycleError
  | .ready =>
    let steps := s.steps + 1
    let fin := s.episode_length ≤ steps
    .ok ({ s with steps := steps,
                  phase := if fin then .done else .ready },
         fin)

/-- Claim C9: calling `step` before any `reset` (phase `UNINITIALIZED`) fails
with a `LifecycleError`, and after a step returned `done = true`, stepping the
resulting state without an intervening `reset` also fails with a
`LifecycleError`. -/
theorem step_lifecycle_error (s next : EnvSM) (d : Bool) :
    (s.phase = .uninitialized → sm_step s = .error .lifecycleError)
    ∧ (sm_step s = .ok (next, d) → d = true →
        sm_step next = .error .lifecycleError) := by
  constructor
  · intro h
    unfold sm_step
    rw [h]
  · intro hok hd
    subst hd
    unfold sm_step at hok ⊢
    match hs : s.phase with
    | .uninitialized => rw [hs] at hok; exact absurd hok (by simp)
    | .done => rw [hs] at hok; exact absurd hok (by simp)
    | .ready =>
      rw [hs] at hok
      simp only [Except.ok.injEq, Prod.mk.injEq, decide_eq_true_eq] at hok
      obtain ⟨hnext, hfin⟩ := hok
      rw [← hnext]
      simp [hfin]

/-- Witness for C9: stepping a fresh (never reset) machine fails, and stepping
the state produced by the final step of a 1-step episode fails. -/
theorem step_lifecycle_error_witness :
    sm_step ⟨.uninitialized, 0, 1⟩ = .error .lifecycleError
    ∧ sm_step ⟨.done, 1, 1⟩ = .error .lifecycleError :=
  ⟨(step_lifecycle_error ⟨.uninitialized, 0, 1⟩ ⟨.done, 1, 1⟩ true).1 rfl,
   (step_lifecycle_error ⟨.ready, 0, 1⟩ ⟨.done, 1, 1⟩ true).2 rfl rfl⟩

/-- The value held by the `episode_sample` attribute of a `BaseEnv` instance:
either a string (as a subclass might pre-set before calling the base
constructor) or one of the two bound sampler methods that `__init__` rebinds
the attribute to. -/
inductive SamplerAttr
  | str (s : String)
  | randomSampleMethod
  | fixedSampleMethod
  deriving DecidableEq, Repr

/-- The attributes `BaseEnv.__init__` establishes on success. -/
structure EnvInit where
  episode_sample : SamplerAttr
  episode_length : ℤ
  deriving DecidableEq, Repr

/-- `BaseEnv.__init__` (env.py lines 29-48).  The body never assigns the
`episode_sample` parameter to the instance; it reads `self.episode_sample`,
which on a fresh instance (`pre_set = none`) was never assigned, so Python
raises an `AttributeError` there.  When a subclass pre-set the attribute, the
two `if` statements compare it against the strings `random` and `fixed` and
rebind it to the corresponding bound method, and `episode_length` is clamped
to the table length.  The constructor parameter `episode_sample_arg` is dead:
it appears nowhere in the body. -/
def base_env_init (pre_set : Option SamplerAttr) (episode_sample_arg : String)
    (episode_length table_length : ℤ) : Except EnvError EnvInit :=
  match pre_set with
  | none => .error .attributeError
  | some attr =>
    let attr1 := if attr = .str "random" then SamplerAttr.randomSampleMethod
                 else attr
    let attr2 := if attr1 = .str "fixed" then SamplerAttr.fixedSampleMethod
                 else attr1
    .ok { episode_sample := attr2,
          episode_length := min episode_length table_length }

/-- Claim C10: on a fresh instance (no attribute pre-set by a subclass),
`BaseEnv.__init__` fails with an attribute-access error for every value of its
`episode_sample` argument, before any sampler strategy is selected; and for
every attribute state, the argument never influences the outcome. -/
theorem base_env_init_attribute_error (pre_set : Option SamplerAttr)
    (arg arg' : String) (episode_length table_length : ℤ) :
    base_env_init none arg episode_length table_length =
        .error .attributeError
    ∧ base_env_init pre_set arg episode_length table_length =
        base_env_init pre_set arg' episode_length table_length :=
  ⟨rfl, rfl⟩

/-- Modelled from the spec: `memory.calculate_returns` (from
`energy_py.agents`, not under src/; invoked in `REINFORCE._learn`,
reinforce.py line 115) is the Monte-Carlo discounted-return backward recursion
of spec §4.3: `returns[T-1] = r[T-1]` and
`returns[t] = r[t] + γ * returns[t+1]`, written here as structural recursion
on the reward list. -/
def calculate_returns (discount : ℚ) : List ℚ → List ℚ
  | [] => []
  | r :: rs =>
    let rest := calculate_returns discount rs
    (r + discount * rest.headD 0) :: rest

/-- The returns series has one entry per reward. -/
theorem calculate_returns_length (discount : ℚ) (rs : List ℚ) :
    (calculate_returns discount rs).length = rs.length := by
  induction rs with
  | nil => rfl
  | cons r rs ih => simp [calculate_returns, ih]

/-- The head fallback of a nonempty returns series agrees with indexing at 0. -/
theorem calculate_returns_headD (discount : ℚ) (rs : List ℚ) :
    (calculate_returns discount rs).headD 0 =
      (calculate_returns discount rs).getD 0 0 := by
  cases rs <;> simp [calculate_returns]

/-- The closed form of the backward recursion:
`returns[t] = Σ_{k=0}^{T-1-t} γ^k * r[t+k]`. -/
theorem calculate_returns_getD (discount : ℚ) (rs : List ℚ) (t : ℕ)
    (ht : t < rs.length) :
    (calculate_returns discount rs).getD t 0 =
      ∑ k in Finset.range (rs.length - t),
        discount ^ k * rs.getD (t + k) 0 := by
  induction rs generalizing t with
  | nil => simp at ht
  | cons r rs ih =>
    cases t with
    | succ t =>
      have ht' : t < rs.length := by simpa using ht
      calc (calculate_returns discount (r :: rs)).getD (t + 1) 0
          = (calculate_returns discount rs).getD t 0 := by
            simp [calculate_returns]
        _ = ∑ k in Finset.range (rs.length - t),
              discount ^ k * rs.getD (t + k) 0 := ih t ht'
        _ = ∑ k in Finset.range ((r :: rs).length - (t + 1)),
              discount ^ k * (r :: rs).getD (t + 1 + k) 0 := by
            apply Finset.sum_congr
            · simp
            · intro k _
              have : t + 1 + k = (t + k) + 1 := by omega
              rw [this, List.getD_cons_succ]
    | zero =>
      cases rs with
      | nil => simp [calculate_returns]
      | cons r' rs' =>
        have hlen : 0 < (r' :: rs').length := by simp
        have hhead := calculate_returns_headD discount (r' :: rs')
        have hih := ih 0 hlen
        calc (calculate_returns discount (r :: r' :: rs')).getD 0 0
            = r + discount * (calculate_returns discount (r' :: rs')).headD 0 := by
              simp [calculate_returns]
          _ = r + discount * ∑ k in Finset.range ((r' :: rs').length),
                discount ^ k * (r' :: rs').getD k 0 := by
              rw [hhead, hih]; simp
          _ = ∑ k in Finset.range ((r :: r' :: rs').length - 0),
                discount ^ k * (r :: r' :: rs').getD (0 + k) 0 := by
              simp only [List.length_cons, Nat.sub_zero, Nat.zero_add]
              conv_rhs => rw [Finset.sum_range_succ']
              simp only [List.getD_cons_succ, List.getD_cons_zero, pow_zero,
                one_mul]
              rw [Finset.mul_sum, add_comm]
              congr 1
              apply Finset.sum_congr rfl
              intro k _
              ring

/-- With `γ = 0` the returns equal the reward series unchanged. -/
theorem calculate_returns_zero_discount (rs : List ℚ) :
    calculate_returns 0 rs = rs := by
  induction rs with
  | nil => rfl
  | cons r rs ih => simp [calculate_returns, ih]

/-- Claim C1: for every reward sequence and discount `γ ∈ [0, 1]`, the
discounted-return computation invoked by the learner returns a sequence with
`returns[t] = Σ_{k=0}^{T-1-t} γ^k * r[t+k]` at every index; rewards
`[1, 1, 1]` with `γ = 9/10` yield `[271/100, 19/10, 1]` (that is,
`[2.71, 1.9, 1.0]` exactly), and with `γ = 0` the returns equal the reward
series unchanged. -/
theorem reinforce_calculate_returns_correct (discount : ℚ) (rs : List ℚ)
    (t : ℕ) (h0 : 0 ≤ discount) (h1 : discount ≤ 1) (ht : t < rs.length) :
    (calculate_returns discount rs).getD t 0 =
        ∑ k in Finset.range (rs.length - t),
          discount ^ k * rs.getD (t + k) 0
    ∧ calculate_returns (9/10) [1, 1, 1] = [271/100, 19/10, 1]
    ∧ calculate_returns 0 rs = rs :=
  ⟨calculate_returns_getD discount rs t ht,
   by norm_num [calculate_returns],
   calculate_returns_zero_discount rs⟩

/-- Witness for C1 at `γ = 9/10`, rewards `[1, 1, 1]`, index 0: the closed
form, the concrete return series and the zero-discount identity, all at a
concrete input. -/
theorem reinforce_calculate_returns_correct_witness :
    ((calculate_returns (9/10) [1, 1, 1]).getD 0 0 =
        ∑ k in Finset.range (3 - 0), (9/10 : ℚ) ^ k * [1, 1, 1].getD (0 + k) 0)
    ∧ calculate_returns (9/10) [1, 1, 1] = [271/100, 19/10, 1]
    ∧ calculate_returns 0 [1, 1, 1] = [1, 1, 1] := by
  have h := reinforce_calculate_returns_correct (9/10) [1, 1, 1] 0
    (by norm_num) (by norm_num) (by norm_num)
  simpa using h

/-- Arithmetic mean of a batch, `sum / length`. -/
def batch_mean (xs : List ℚ) : ℚ := xs.sum / xs.length

/-- Population variance of a batch. -/
def batch_variance (xs : List ℚ) : ℚ :=
  (xs.map (fun x => (x - batch_mean xs) ^ 2)).sum / xs.length

/-- Modelled from the spec: the scale used by the `Normalizer` (imported from
`energy_py`, not under src/; created as `Normalizer(1)` in
`REINFORCE.__init__`, reinforce.py lines 54-56): the batch's standard
deviation, or the configured fallback (e.g. 1.0) when the batch has zero
variance — never zero.  The standard deviation is irrational in general, so it
enters as the parameter `std`. -/
def normalizer_scale (std fallback : ℚ) (xs : List ℚ) : ℚ :=
  if batch_variance xs = 0 then fallback else std

/-- Modelled from the spec: `Normalizer.transform` as applied to the returns
in `REINFORCE._learn` (reinforce.py line 116): `z = x / scale`, scale-only,
with no mean subtraction. -/
def normalizer_transform (std fallback : ℚ) (xs : List ℚ) : List ℚ :=
  xs.map (fun x => x / normalizer_scale std fallback xs)

/-- Dividing every element divides the sum. -/
theorem list_sum_map_div (xs : List ℚ) (s : ℚ) :
    (xs.map (fun x => x / s)).sum = xs.sum / s := by
  induction xs with
  | nil => simp
  | cons x xs ih => simp [ih, add_div]

/-- Dividing every element divides the mean. -/
theorem batch_mean_map_div (xs : List ℚ) (s : ℚ) :
    batch_mean (xs.map (fun x => x / s)) = batch_mean xs / s := by
  unfold batch_mean
  rw [List.length_map, list_sum_map_div, div_right_comm]

/-- Claim C7: the returns normalizer applied in `REINFORCE._learn` is
scale-only — `z = x / scale` with no mean subtraction — so the mean of the
output is `mean(input) / scale`, in particular for the input `[2, 4, 6]`;
when the batch has zero variance the scale is the configured fallback, and
the scale is never zero. -/
theorem normalizer_scale_only (std fallback : ℚ) (xs : List ℚ)
    (hstd : std ≠ 0) (hfb : fallback ≠ 0) :
    batch_mean (normalizer_transform std fallback xs) =
        batch_mean xs / normalizer_scale std fallback xs
    ∧ batch_mean (normalizer_transform std fallback [2, 4, 6]) =
        batch_mean [2, 4, 6] / normalizer_scale std fallback [2, 4, 6]
    ∧ (batch_variance xs = 0 → normalizer_scale std fallback xs = fallback)
    ∧ normalizer_scale std fallback xs ≠ 0 := by
  refine ⟨batch_mean_map_div xs _, batch_mean_map_div [2, 4, 6] _, ?_, ?_⟩
  · intro h
    unfold normalizer_scale
    rw [if_pos h]
  · unfold normalizer_scale
    split
    · exact hfb
    · exact hstd

/-- Witness for C7 at `std = 2`, `fallback = 1`, batch `[2, 4, 6]`: the
normalized mean is `mean([2, 4, 6]) / scale` and the scale is nonzero. -/
theorem normalizer_scale_only_witness :
    batch_mean (normalizer_transform 2 1 [2, 4, 6]) =
        batch_mean [2, 4, 6] / normalizer_scale 2 1 [2, 4, 6]
    ∧ normalizer_scale 2 1 [2, 4, 6] ≠ 0 := by
  have h := normalizer_scale_only 2 1 [2, 4, 6] (by norm_num) (by norm_num)
  exact ⟨h.1, h.2.2.2⟩

/-- The diagnostic mapping `self.memory.info`, a `defaultdict(list)`: every
key maps to a list of scalars, initially empty. -/
def Info : Type := String → List ℚ

/-- A fresh diagnostic mapping. -/
def emptyInfo : Info := fun _ => []

/-- `info[k].append(v)`. -/
def appendInfo (info : Info) (k : String) (v : ℚ) : Info :=
  fun s => if s = k then info s ++ [v] else info s

/-- The key `'mean {i}'.format(i)`. -/
def mean_key (i : ℕ) : String := "mean " ++ toString i

/-- The key `'stdevs {i}'.format(i)`. -/
def stdevs_key (i : ℕ) : String := "stdevs " ++ toString i

/-- The diagnostic-recording loops of `REINFORCE._act` (reinforce.py lines
78-82).  The first loop appends `means[i]` under the key `mean i`.  The second
loop enumerates `stdevs` but its body appends `mean` — the loop variable left
over from the first loop, which at that point holds the LAST element of
`means` — under the key `stdevs i`.  When `means` is empty and `stdevs` is
not, the name `mean` is unbound and Python raises a `NameError` (`none`
here). -/
def act_diagnostics (info : Info) (means stdevs : List ℚ) : Option Info :=
  let info1 := means.enum.foldl
    (fun acc p => appendInfo acc (mean_key p.1) p.2) info
  match stdevs, means.getLast? with
  | [], _ => some info1
  | _ :: _, none => none
  | _ :: _, some m =>
    some (stdevs.enum.foldl
      (fun acc p => appendInfo acc (stdevs_key p.1) m) info1)

/-- Claim C8, evaluated at the failing input `means = [1]`, `stdevs = [2]`:
the key `mean 0` correctly receives the mean `1`, but the key `stdevs 0`
receives `1` — the leftover value of the `mean` loop variable — rather than
the standard deviation `2` the claim promises. -/
theorem reinforce_act_stdevs_bug :
    (act_diagnostics emptyInfo [1] [2]).elim [] (fun f => f (mean_key 0)) =
        [(1 : ℚ)]
    ∧ (act_diagnostics emptyInfo [1] [2]).elim [] (fun f => f (stdevs_key 0)) =
        [(1 : ℚ)]
    ∧ [(1 : ℚ)] ≠ [(2 : ℚ)] := by
  refine ⟨rfl, rfl, by decide⟩
